import Mathlib

/-!
Shallow embedding of the Filtro backend server's data-processing core
(`backend/server.js`): loosely-typed cell values, the filter-condition
evaluator, the AND/OR combinator, Excel column-type inference, the
composite-key reference join, and pagination.  JavaScript numbers are
idealized as extended rationals (NaN, plus/minus Infinity, finite ℚ); every
concrete input exercised below stays in the range where IEEE doubles are
exact.
-/

namespace Filtro

/-- JavaScript number values, idealized: `NaN`, positive or negative
`Infinity`, or a finite rational standing in for an IEEE double. -/
inductive JSNum where
  | nan
  | inf
  | ninf
  | fin (q : ℚ)
deriving DecidableEq, Repr

namespace JSNum

/-- `isNaN(n)` on an already-numeric value. -/
def isNaN : JSNum → Bool
  | nan => true
  | _ => false

/-- `isFinite(n)` on an already-numeric value. -/
def isFinite : JSNum → Bool
  | fin _ => true
  | _ => false

/-- IEEE `===` on numbers: `NaN` equals nothing, each infinity equals itself. -/
def eqb : JSNum → JSNum → Bool
  | fin p, fin q => p == q
  | inf, inf => true
  | ninf, ninf => true
  | _, _ => false

/-- IEEE `<` on numbers: any comparison involving `NaN` is false. -/
def ltb : JSNum → JSNum → Bool
  | fin p, fin q => decide (p < q)
  | fin _, inf => true
  | ninf, fin _ => true
  | ninf, inf => true
  | _, _ => false

/-- IEEE `<=`. -/
def leb (a b : JSNum) : Bool := ltb a b || eqb a b

/-- IEEE `>`. -/
def gtb (a b : JSNum) : Bool := ltb b a

/-- IEEE `>=`. -/
def geb (a b : JSNum) : Bool := leb b a

end JSNum

/-- A loosely-typed cell / JS scalar as it appears in a parsed row: `null`,
`undefined` (absent property), a string, a number, or a `Date` carried as a
millisecond timestamp (`Date` cells come only from the Excel parser and no
claim depends on their stringification, which is locale-defined in JS and
modeled here as a fixed rendering). -/
inductive Cell where
  | vNull
  | vUndefined
  | vStr (s : String)
  | vNum (n : JSNum)
  | vDate (ms : Int)
deriving DecidableEq, Repr

/-- `String.prototype.trim`: strip whitespace from both ends (ASCII
whitespace model, matching the characters the claims exercise). -/
def jsTrim (s : String) : String :=
  ⟨((s.toList.dropWhile Char.isWhitespace).reverse.dropWhile Char.isWhitespace).reverse⟩

/-- ASCII model of `String.prototype.toLowerCase`. -/
def jsToLower (s : String) : String := ⟨s.toList.map Char.toLower⟩

/-- `a.startsWith(b)`. -/
def jsStartsWith (a b : String) : Bool := b.toList.isPrefixOf a.toList

/-- `a.endsWith(b)`. -/
def jsEndsWith (a b : String) : Bool := b.toList.reverse.isPrefixOf a.toList.reverse

/-- Numeric value of one decimal digit character. -/
def digitVal (c : Char) : ℕ := c.toNat - '0'.toNat

/-- Split off the longest prefix of decimal digits. -/
def takeDigits : List Char → List Char × List Char
  | [] => ([], [])
  | c :: cs =>
    if c.isDigit then
      let (ds, rest) := takeDigits cs
      (c :: ds, rest)
    else ([], c :: cs)

/-- Natural number denoted by a digit list. -/
def digitsToNat (ds : List Char) : ℕ := ds.foldl (fun a c => a * 10 + digitVal c) 0

/-- Parse an optional sign followed by either the keyword `Infinity` or a
decimal literal (digits, optional fraction, optional exponent) at the head
of `cs`, in ECMAScript `StrDecimalLiteral` style with longest match.
Returns the value and the unconsumed suffix, or `none` when no numeric
prefix exists.  Hexadecimal and similar `Number`-only literal forms are not
modeled; no claim uses them. -/
def parseNumPrefix (cs : List Char) : Option (JSNum × List Char) :=
  let (sign, cs1) :=
    match cs with
    | '-' :: rest => (true, rest)
    | '+' :: rest => (false, rest)
    | _ => (false, cs)
  if ("Infinity".toList).isPrefixOf cs1 then
    some (if sign then .ninf else .inf, cs1.drop 8)
  else
    let (intDs, cs2) := takeDigits cs1
    let (fracDs, cs3) :=
      match cs2 with
      | '.' :: rest => takeDigits rest
      | _ => ([], cs2)
    if intDs = [] ∧ fracDs = [] then none
    else
      let mantissa : ℚ :=
        (digitsToNat intDs : ℚ) + (digitsToNat fracDs : ℚ) / ((10 : ℚ) ^ fracDs.length)
      let (expVal, cs4) :=
        match cs3 with
        | e :: rest =>
          if e = 'e' ∨ e = 'E' then
            let (esign, rest1) :=
              match rest with
              | '-' :: r => (true, r)
              | '+' :: r => (false, r)
              | _ => (false, rest)
            let (eds, rest2) := takeDigits rest1
            if eds = [] then ((0 : Int), cs3)
            else (if esign then -(digitsToNat eds : Int) else (digitsToNat eds : Int), rest2)
          else ((0 : Int), cs3)
        | [] => ((0 : Int), cs3)
      let mag : ℚ := mantissa * (10 : ℚ) ^ expVal
      some (.fin (if sign then -mag else mag), cs4)

/-- ECMAScript `parseFloat` on a string: skip leading whitespace, then take
the longest numeric prefix; `NaN` when there is none. -/
def parseFloatString (s : String) : JSNum :=
  match parseNumPrefix (s.toList.dropWhile Char.isWhitespace) with
  | some (v, _) => v
  | none => .nan

/-- Decimal rendering of the fractional part `num/den` by long division,
at most `fuel` digits.  Exact for terminating decimal expansions, which
covers every number a claim prints. -/
def fracDigits (fuel : ℕ) (num den : ℕ) : String :=
  match fuel with
  | 0 => ""
  | fuel' + 1 =>
    if num = 0 then ""
    else toString (num * 10 / den) ++ fracDigits fuel' (num * 10 % den) den

/-- `String(n)` for a number: modeled exactly for `NaN`, infinities,
integers and terminating decimal fractions. -/
def jsNumToString : JSNum → String
  | .nan => "NaN"
  | .inf => "Infinity"
  | .ninf => "-Infinity"
  | .fin q =>
    if q.den = 1 then toString q.num
    else
      (if q < 0 then "-" else "") ++ toString (q.num.natAbs / q.den) ++ "." ++
        fracDigits 20 (q.num.natAbs % q.den) q.den

/-- Fixed rendering standing in for the locale-defined `String(dateObject)`;
no claim depends on it. -/
def jsDateToString (ms : Int) : String := "[Date " ++ toString ms ++ "]"

/-- The `String(v)` coercion. -/
def jsToString : Cell → String
  | .vNull => "null"
  | .vUndefined => "undefined"
  | .vStr s => s
  | .vNum n => jsNumToString n
  | .vDate ms => jsDateToString ms

/-- ECMAScript `ToNumber` (`Number(v)`, also the coercion inside the global
`isNaN` / `isFinite`): for strings the whole trimmed string must be numeric
and the empty string coerces to `0`. -/
def jsToNumber : Cell → JSNum
  | .vNull => .fin 0
  | .vUndefined => .nan
  | .vNum n => n
  | .vDate ms => .fin ms
  | .vStr s =>
    let t := ((s.toList.dropWhile Char.isWhitespace).reverse.dropWhile Char.isWhitespace).reverse
    if t = [] then .fin 0
    else
      match parseNumPrefix t with
      | some (v, []) => v
      | _ => .nan

/-- `parseFloat(v)` on an arbitrary value: JS first applies `ToString`; for
numeric arguments that round-trip returns the number itself, so the numeric
case is short-circuited. -/
def jsParseFloat : Cell → JSNum
  | .vNum n => n
  | c => parseFloatString (jsToString c)

/-- Days since the Unix epoch of a civil date (standard civil-from-days
inverse, Hinnant's algorithm; divisions only hit nonnegative operands). -/
def daysFromCivil (y m d : Int) : Int :=
  let y1 := if m ≤ 2 then y - 1 else y
  let era := (if 0 ≤ y1 then y1 else y1 - 399) / 400
  let yoe := y1 - era * 400
  let mp := if 2 < m then m - 3 else m + 9
  let doy := (153 * mp + 2) / 5 + d - 1
  let doe := yoe * 365 + yoe / 4 - yoe / 100 + doy
  era * 146097 + doe - 719468

/-- Gregorian leap year. -/
def isLeapYear (y : Int) : Bool := y % 4 = 0 && (y % 100 ≠ 0 || y % 400 = 0)

/-- Days in a month. -/
def daysInMonth (y m : Int) : Int :=
  if m = 2 then (if isLeapYear y then 29 else 28)
  else if m = 4 ∨ m = 6 ∨ m = 9 ∨ m = 11 then 30
  else 31

/-- A (year, month, day) triple denotes a real calendar date. -/
def validCivil (y m d : Int) : Bool :=
  1 ≤ m && m ≤ 12 && 1 ≤ d && d ≤ daysInMonth y m

/-- Every character is a decimal digit. -/
def allDigits (cs : List Char) : Bool := cs.all Char.isDigit

/-- The four calendar-date string shapes tested by `detectDataType`
(`YYYY-MM-DD`, `MM/DD/YYYY`, `MM-DD-YYYY`, `YYYY/MM/DD`), mirroring its
regular expressions; returns the (year, month, day) groups on a match. -/
def matchDateShape (s : String) : Option (Int × Int × Int) :=
  match s.toList with
  | [c0, c1, c2, c3, c4, c5, c6, c7, c8, c9] =>
    if allDigits [c0, c1, c2, c3] && allDigits [c5, c6] && allDigits [c8, c9] &&
        ((c4 = '-' && c7 = '-') || (c4 = '/' && c7 = '/')) then
      some ((digitsToNat [c0, c1, c2, c3] : Int), (digitsToNat [c5, c6] : Int),
        (digitsToNat [c8, c9] : Int))
    else if allDigits [c0, c1] && allDigits [c3, c4] && allDigits [c6, c7, c8, c9] &&
        ((c2 = '/' && c5 = '/') || (c2 = '-' && c5 = '-')) then
      some ((digitsToNat [c6, c7, c8, c9] : Int), (digitsToNat [c0, c1] : Int),
        (digitsToNat [c3, c4] : Int))
    else none
  | _ => none

/-- Model of `new Date(string)`: the four calendar shapes above with a valid
month and day parse to midnight UTC; all other strings are modeled as an
invalid date.  (Full ECMAScript date-string parsing is implementation
defined and far broader; no claim depends on the difference.) -/
def parseDateString (s : String) : Option Int :=
  match matchDateShape (jsTrim s) with
  | some (y, m, d) => if validCivil y m d then some (daysFromCivil y m d * 86400000) else none
  | none => none

/-- Model of `new Date(v)` followed by `getTime()`: `some` milliseconds for
a valid date, `none` for an invalid one (`new Date(null)` is the epoch,
`new Date(undefined)` is invalid). -/
def jsNewDate : Cell → Option Int
  | .vNull => some 0
  | .vUndefined => none
  | .vNum (.fin q) => some q.floor
  | .vNum _ => none
  | .vDate ms => some ms
  | .vStr s => parseDateString s

/-- `detectDataType(value)` from `backend/server.js`: classify one value as
`"text"`, `"date"` or `"number"`. -/
def detectDataType (value : Cell) : String :=
  if value = .vNull ∨ value = .vUndefined ∨ value = .vStr "" then "text"
  else if (match value with | .vDate _ => true | _ => false) then "date"
  else if (match value with | .vNum _ => true | _ => false) then "number"
  else
    let dateStr := jsTrim (jsToString value)
    if (matchDateShape dateStr).isSome && (parseDateString dateStr).isSome then "date"
    else if !(jsToNumber value).isNaN && !(jsParseFloat value).isNaN &&
        (jsToNumber value).isFinite then "number"
    else "text"

/-- A parsed row: a JavaScript object, i.e. an ordered association list from
column name to cell value (keys are unique as produced by the parser). -/
abbrev Row := List (String × Cell)

/-- `row[column]`: property access; a missing key yields `undefined`. -/
def getCell (row : Row) (k : String) : Cell :=
  match row.find? (fun p => p.1 == k) with
  | some p => p.2
  | none => .vUndefined

/-- `row[k] = v`: JS property assignment — replace the value of an existing
key in place, otherwise append the new key at the end. -/
def setCell (row : Row) (k : String) (v : Cell) : Row :=
  if row.any (fun p => p.1 == k) then
    row.map (fun p => if p.1 == k then (p.1, v) else p)
  else row ++ [(k, v)]

/-- One filter condition as carried in the JSON payload; `value` and
`value2` arrive loosely typed, and an absent field is `undefined`. -/
structure FilterCond where
  column : String
  condition : String
  value : Cell
  value2 : Cell
deriving DecidableEq, Repr

/-- The evaluator's string coercion of the cell:
`cellValue !== null && cellValue !== undefined ? String(cellValue) : ''`. -/
def coerceCellString : Cell → String
  | .vNull => ""
  | .vUndefined => ""
  | v => jsToString v

/-- `needle` occurs as a contiguous sublist of the second argument. -/
def listIsInfixOf (needle : List Char) : List Char → Bool
  | [] => needle.isEmpty
  | c :: t => needle.isPrefixOf (c :: t) || listIsInfixOf needle t

/-- `a.includes(b)`: substring containment. -/
def strIncludes (a b : String) : Bool := listIsInfixOf b.toList a.toList

/-- `Date.prototype.toDateString` equality: same calendar day (modeled in
UTC; the dates the model produces sit at midnight UTC). -/
def sameCalendarDay (a b : Int) : Bool := a.fdiv 86400000 == b.fdiv 86400000

/-- `evaluateFilter(row, filter)` from `backend/server.js`: the
condition-name switch.  The inline copy of the same switch in
`applyFilters` is character-identical in the source and is embedded once. -/
def evaluateFilter (row : Row) (f : FilterCond) : Bool :=
  let cellValue := getCell row f.column
  let cellValueStr := coerceCellString cellValue
  match f.condition with
  | "equals" =>
    let num1 := jsParseFloat cellValue
    let num2 := jsParseFloat f.value
    !num1.isNaN && !num2.isNaN && num1.eqb num2
  | "notEquals" =>
    let num1 := jsParseFloat cellValue
    let num2 := jsParseFloat f.value
    num1.isNaN || num2.isNaN || !(num1.eqb num2)
  | "greaterThan" =>
    let num1 := jsParseFloat cellValue
    let num2 := jsParseFloat f.value
    !num1.isNaN && !num2.isNaN && num1.gtb num2
  | "lessThan" =>
    let num1 := jsParseFloat cellValue
    let num2 := jsParseFloat f.value
    !num1.isNaN && !num2.isNaN && num1.ltb num2
  | "greaterThanOrEqual" =>
    let num1 := jsParseFloat cellValue
    let num2 := jsParseFloat f.value
    !num1.isNaN && !num2.isNaN && num1.geb num2
  | "lessThanOrEqual" =>
    let num1 := jsParseFloat cellValue
    let num2 := jsParseFloat f.value
    !num1.isNaN && !num2.isNaN && num1.leb num2
  | "between" =>
    let num := jsParseFloat cellValue
    let num1 := jsParseFloat f.value
    let num2 := jsParseFloat f.value2
    !num.isNaN && !num1.isNaN && !num2.isNaN && num.geb num1 && num.leb num2
  | "contains" => strIncludes (jsToLower cellValueStr) (jsToLower (jsToString f.value))
  | "doesNotContain" => !strIncludes (jsToLower cellValueStr) (jsToLower (jsToString f.value))
  | "startsWith" => jsStartsWith (jsToLower cellValueStr) (jsToLower (jsToString f.value))
  | "endsWith" => jsEndsWith (jsToLower cellValueStr) (jsToLower (jsToString f.value))
  | "exactMatch" => cellValueStr == jsToString f.value
  | "before" =>
    match jsNewDate cellValue, jsNewDate f.value with
    | some cellDate, some filterDate => decide (cellDate < filterDate)
    | _, _ => false
  | "after" =>
    match jsNewDate cellValue, jsNewDate f.value with
    | some cellDate, some filterDate => decide (filterDate < cellDate)
    | _, _ => false
  | "on" =>
    match jsNewDate cellValue, jsNewDate f.value with
    | some cellDate, some filterDate => sameCalendarDay cellDate filterDate
    | _, _ => false
  | "betweenDates" =>
    match jsNewDate cellValue, jsNewDate f.value, jsNewDate f.value2 with
    | some dateValue, some date1, some date2 =>
      decide (date1 ≤ dateValue) && decide (dateValue ≤ date2)
    | _, _, _ => false
  | "isEmpty" =>
    cellValue == .vNull || cellValue == .vUndefined || cellValue == .vStr "" ||
      jsTrim cellValueStr == ""
  | "isNotEmpty" =>
    cellValue != .vNull && cellValue != .vUndefined && cellValue != .vStr "" &&
      jsTrim cellValueStr != ""
  | _ => true

/-- `applyFilters(data, filters)` (the `/api/filter` path): every condition
must hold.  Its inline predicate switch is the verbatim text of
`evaluateFilter` in the source. -/
def applyFilters (data : List Row) (filters : List FilterCond) : List Row :=
  if filters.isEmpty then data
  else data.filter (fun row => filters.all (fun f => evaluateFilter row f))

/-- `applyFiltersWithLogic(data, filters, logicOperator)`: OR keeps a row
when some condition holds, anything else behaves as AND. -/
def applyFiltersWithLogic (data : List Row) (filters : List FilterCond)
    (logicOperator : String) : List Row :=
  if filters.isEmpty then data
  else if logicOperator == "OR" then
    data.filter (fun row => filters.any (fun f => evaluateFilter row f))
  else
    data.filter (fun row => filters.all (fun f => evaluateFilter row f))

/-- The column-typing step of `parseExcel` for one header: sample the first
`min(100, ⌊rows/10⌋)` rows, drop empty values, classify each sampled value,
and take the most common type with ties resolved toward number, then date
(the source counts occurrences in a three-field object; the counts are the
filtered lengths here). -/
def inferColumnType (data : List Row) (header : String) : String :=
  let sampleSize := min 100 (data.length / 10)
  let sampleValues := ((data.take sampleSize).map (fun row => getCell row header)).filter
    (fun val => val != .vNull && val != .vUndefined && val != .vStr "")
  if sampleValues.isEmpty then "text"
  else
    let typeCounts := sampleValues.map detectDataType
    let countNumber := (typeCounts.filter (fun t => t == "number")).length
    let countDate := (typeCounts.filter (fun t => t == "date")).length
    let countText := (typeCounts.filter (fun t => t == "text")).length
    if countNumber ≥ countDate ∧ countNumber ≥ countText then "number"
    else if countDate ≥ countText then "date"
    else "text"

/-- `parseExcel`'s column-type map over all headers. -/
def inferColumnTypes (headers : List String) (data : List Row) : List (String × String) :=
  headers.map (fun h => (h, inferColumnType data h))

/-- `Object.keys(row)` in insertion order. -/
def objectKeys (row : Row) : List String := row.map Prod.fst

/-- One normalized composite-key component:
`value !== null && value !== undefined ? String(value).toLowerCase().trim() : ''`. -/
def normalizeKeyComponent : Cell → String
  | .vNull => ""
  | .vUndefined => ""
  | v => jsTrim (jsToLower (jsToString v))

/-- One key-column pair `{refColumn, primaryColumn}`. -/
structure KeyColumn where
  refColumn : String
  primaryColumn : String
deriving DecidableEq, Repr

/-- Composite key of a reference row: normalized components joined by the
`|||` sentinel in key-column order. -/
def refCompositeKey (keyColumns : List KeyColumn) (refRow : Row) : String :=
  String.intercalate "|||"
    (keyColumns.map (fun kc => normalizeKeyComponent (getCell refRow kc.refColumn)))

/-- Composite key of a primary row, over the primary-side column names. -/
def primaryCompositeKey (keyColumns : List KeyColumn) (primaryRow : Row) : String :=
  String.intercalate "|||"
    (keyColumns.map (fun kc => normalizeKeyComponent (getCell primaryRow kc.primaryColumn)))

/-- The reference lookup index: composite key to bucket of reference rows. -/
abbrev RefMap := List (String × List Row)

/-- `referenceMap.get(key)`; a missing key behaves as an empty bucket (the
handler tests the lookup result for presence and non-emptiness). -/
def mapGet (m : RefMap) (k : String) : List Row :=
  match m.find? (fun p => p.1 == k) with
  | some p => p.2
  | none => []

/-- Append one reference row to its key's bucket, creating the bucket on
first use (the `referenceMap.has` / `set` / `push` sequence). -/
def mapPush (m : RefMap) (k : String) (r : Row) : RefMap :=
  if m.any (fun p => p.1 == k) then
    m.map (fun p => if p.1 == k then (p.1, p.2 ++ [r]) else p)
  else m ++ [(k, [r])]

/-- Build the lookup map from the filtered reference rows. -/
def buildRefMap (keyColumns : List KeyColumn) (rows : List Row) : RefMap :=
  rows.foldl (fun m r => mapPush m (refCompositeKey keyColumns r) r) []

/-- The matched-row merge: spread the primary row, then add every reference
column under the `ref_` prefix.  The source branches on whether the name
also occurs among the primary headers, but both branches assign the same
prefixed key, so the branch is collapsed here. -/
def mergeRow (refHeaders : List String) (primaryRow refRow : Row) : Row :=
  refHeaders.foldl
    (fun acc header => setCell acc ("ref_" ++ header) (getCell refRow header)) primaryRow

/-- The left-join row for an unmatched primary row: every `ref_` column set
to `null` (the source again has two identical branches, collapsed here). -/
def leftNullRow (refHeaders : List String) (primaryRow : Row) : Row :=
  refHeaders.foldl (fun acc header => setCell acc ("ref_" ++ header) Cell.vNull) primaryRow

/-- The body of the per-primary-row join loop: the rows emitted for one
primary row. -/
def joinEmit (refMap : RefMap) (keyColumns : List KeyColumn) (refHeaders : List String)
    (joinType : String) (primaryRow : Row) : List Row :=
  let matchingRefRows := mapGet refMap (primaryCompositeKey keyColumns primaryRow)
  if !matchingRefRows.isEmpty then
    matchingRefRows.map (fun refRow => mergeRow refHeaders primaryRow refRow)
  else if joinType == "left" then
    [leftNullRow refHeaders primaryRow]
  else []

/-- The handler's message for a missing reference-side key column. -/
def refColumnError (c : String) : String := "Reference column \"" ++ c ++ "\" not found"

/-- The handler's message for a missing primary-side key column. -/
def primaryColumnError (c : String) : String := "Primary column \"" ++ c ++ "\" not found"

/-- The key-column validation loop: the first missing column decides the
error. -/
def validateKeyColumns (keyColumns : List KeyColumn) (refHeaders primaryHeaders : List String) :
    Option String :=
  match keyColumns with
  | [] => none
  | kc :: rest =>
    if !refHeaders.contains kc.refColumn then some (refColumnError kc.refColumn)
    else if !primaryHeaders.contains kc.primaryColumn then
      some (primaryColumnError kc.primaryColumn)
    else validateKeyColumns rest refHeaders primaryHeaders

/-- The `matchedPrimaryKeys` set: distinct composite keys of primary rows
that found a match.  The loop inserts into a JS `Set`; only its size is
consumed, so the model counts the deduplicated matched keys. -/
def matchedPrimaryKeys (refMap : RefMap) (keyColumns : List KeyColumn)
    (primaryData : List Row) : List String :=
  ((primaryData.map (fun p => primaryCompositeKey keyColumns p)).filter
    (fun k => !(mapGet refMap k).isEmpty)).dedup

/-- The response body of `/api/reference-filter` before pagination. -/
structure RefFilterOutput where
  data : List Row
  headers : List String
  totalRows : Nat
  originalPrimaryRows : Nat
  filteredRefRows : Nat
  matchedRows : Nat
deriving DecidableEq, Repr

/-- Step 1 of the handler: the reference set after optional filtering
(`filterConditions && filterConditions.length > 0`). -/
def filteredReference (referenceData : List Row) (filterConditions : List FilterCond)
    (logicOperator : String) : List Row :=
  if !filterConditions.isEmpty then
    applyFiltersWithLogic referenceData filterConditions logicOperator
  else referenceData

/-- The `/api/reference-filter` handler: validation, optional reference-side
filtering, index build, join and summary counts.  `joinType` defaults to
`"inner"` and `logicOperator` to `"AND"` in the destructuring; callers of
the model pass the defaults explicitly.  The source checks emptiness of the
two data arrays twice with the same outcome; the check is embedded once. -/
def referenceFilter (referenceData primaryData : List Row) (keyColumns : List KeyColumn)
    (filterConditions : List FilterCond) (logicOperator joinType : String) :
    Except String RefFilterOutput :=
  if referenceData.isEmpty then
    .error "Reference data must be provided as a non-empty array"
  else if primaryData.isEmpty then
    .error "Primary data must be provided as a non-empty array"
  else if keyColumns.isEmpty then
    .error "At least one key column must be specified"
  else
    let refHeaders := objectKeys (referenceData.headD [])
    let primaryHeaders := objectKeys (primaryData.headD [])
    match validateKeyColumns keyColumns refHeaders primaryHeaders with
    | some msg => .error msg
    | none =>
      let filteredReferenceData :=
        filteredReference referenceData filterConditions logicOperator
      let referenceMap := buildRefMap keyColumns filteredReferenceData
      let joinedData :=
        primaryData.flatMap (joinEmit referenceMap keyColumns refHeaders joinType)
      let allHeaders := primaryHeaders ++ refHeaders.map (fun h => "ref_" ++ h)
      .ok {
        data := joinedData
        headers := allHeaders
        totalRows := joinedData.length
        originalPrimaryRows := primaryData.length
        filteredRefRows := filteredReferenceData.length
        matchedRows := (matchedPrimaryKeys referenceMap keyColumns primaryData).length
      }

/-- One page of results as reported by the handlers. -/
structure PageResult (α : Type) where
  data : List α
  currentPage : Int
  totalPages : Int
  hasMore : Bool
deriving Repr

/-- `Array.prototype.slice(start, end)` with ECMAScript index clamping. -/
def jsSlice {α : Type} (l : List α) (start stop : Int) : List α :=
  let len : Int := l.length
  let s := if start < 0 then max (len + start) 0 else min start len
  let e := if stop < 0 then max (len + stop) 0 else min stop len
  (l.drop s.toNat).take (e - s).toNat

/-- The pagination block shared by `/api/filter` and `/api/reference-filter`:
slice `[(page-1)*pageSize, page*pageSize)`, report
`Math.ceil(totalRows/pageSize)` pages and `hasMore = endIndex < totalRows`.
(JS division by a nonpositive `pageSize` would give an infinite page count;
the model is meaningful for positive sizes, which is all the claims use.) -/
def paginate {α : Type} (l : List α) (page pageSize : Int) : PageResult α :=
  let startIndex := (page - 1) * pageSize
  let endIndex := startIndex + pageSize
  let totalRows : Int := l.length
  { data := jsSlice l startIndex endIndex
    currentPage := page
    totalPages := Int.ceil ((totalRows : ℚ) / (pageSize : ℚ))
    hasMore := decide (endIndex < totalRows) }

/-! ### Concrete record sets used to exercise the model -/

/-- A four-row record set whose single column `c` holds the cell values
`1`, `2`, `"3"` and `""`. -/
def smallNumericColumn : List Row :=
  [[("c", .vNum (.fin 1))], [("c", .vNum (.fin 2))], [("c", .vStr "3")], [("c", .vStr "")]]

/-- Forty rows repeating the same four cell values ten times. -/
def repeatedNumericColumn : List Row := (List.replicate 10 smallNumericColumn).flatten

/-- Twenty rows whose column `c` holds only empty strings. -/
def blankColumn : List Row := List.replicate 20 [("c", Cell.vStr "")]

/-! ### Claims -/

/-- C2 (code bug): for the four-row record set with column values `1`, `2`,
`"3"`, `""` the code assigns type `"text"`, not `"number"` as the claim
states, because `sampleSize = min(100, ⌊4/10⌋) = 0` samples no values at
all; each of the three non-empty values does classify as `"number"`, and a
forty-row set repeating the same values (whose sample is non-empty) is
typed `"number"`, so the claim describes the evident intent.  A column with
zero non-empty sampled values does default to `"text"`. -/
theorem c2_type_inference_small_sample :
    inferColumnTypes ["c"] smallNumericColumn = [("c", "text")] ∧
    detectDataType (.vNum (.fin 1)) = "number" ∧
    detectDataType (.vNum (.fin 2)) = "number" ∧
    detectDataType (.vStr "3") = "number" ∧
    inferColumnTypes ["c"] repeatedNumericColumn = [("c", "number")] ∧
    inferColumnTypes ["c"] blankColumn = [("c", "text")] := by
  decide

/-- C7 (confirmed): filtering is idempotent and an empty condition list
returns the data unchanged, for `applyFiltersWithLogic` under either logic
operator and for the AND-only `applyFilters`. -/
theorem c7_filter_idempotent (data : List Row) (filters : List FilterCond) (op : String) :
    applyFiltersWithLogic (applyFiltersWithLogic data filters op) filters op =
      applyFiltersWithLogic data filters op ∧
    applyFiltersWithLogic data [] op = data ∧
    applyFilters (applyFilters data filters) filters = applyFilters data filters ∧
    applyFilters data [] = data := by
  refine ⟨?_, rfl, ?_, rfl⟩
  · unfold applyFiltersWithLogic
    by_cases hf : filters.isEmpty
    · simp [hf]
    · by_cases hop : op == "OR" <;>
        simp [hf, hop, List.filter_filter, Bool.and_self]
  · unfold applyFilters
    by_cases hf : filters.isEmpty
    · simp [hf]
    · simp [hf, List.filter_filter, Bool.and_self]

/-- Helper: every numeric-family condition is false — except `notEquals`,
which is true — whenever the cell or the comparison value parses to `NaN`. -/
lemma eval_numeric_nan (row : Row) (col : String) (v v2 : Cell)
    (h : (jsParseFloat (getCell row col)).isNaN = true ∨ (jsParseFloat v).isNaN = true) :
    evaluateFilter row ⟨col, "equals", v, v2⟩ = false ∧
    evaluateFilter row ⟨col, "greaterThan", v, v2⟩ = false ∧
    evaluateFilter row ⟨col, "lessThan", v, v2⟩ = false ∧
    evaluateFilter row ⟨col, "greaterThanOrEqual", v, v2⟩ = false ∧
    evaluateFilter row ⟨col, "lessThanOrEqual", v, v2⟩ = false ∧
    evaluateFilter row ⟨col, "between", v, v2⟩ = false ∧
    evaluateFilter row ⟨col, "notEquals", v, v2⟩ = true := by
  rcases h with h | h <;>
    exact ⟨by simp [evaluateFilter, h], by simp [evaluateFilter, h], by simp [evaluateFilter, h],
      by simp [evaluateFilter, h], by simp [evaluateFilter, h], by simp [evaluateFilter, h],
      by simp [evaluateFilter, h]⟩

/-- Helper: `between` is also false when `value2` parses to `NaN`. -/
lemma eval_between_nan_value2 (row : Row) (col : String) (v v2 : Cell)
    (h : (jsParseFloat v2).isNaN = true) :
    evaluateFilter row ⟨col, "between", v, v2⟩ = false := by
  simp [evaluateFilter, h]

/-- C3 (amended): a numeric-family predicate is false — `notEquals` true —
whenever the cell or the comparison value parses to `NaN` (fails to parse at
all); `between` is also false when `value2` parses to `NaN`.  (Operands that
parse to an infinity are NOT treated as failures by the code, which only
tests `isNaN`; see the counterexample.) -/
theorem c3_numeric_nan_fail_closed (row : Row) (col : String) (v v2 : Cell) :
    ((jsParseFloat (getCell row col)).isNaN = true ∨ (jsParseFloat v).isNaN = true →
      evaluateFilter row ⟨col, "equals", v, v2⟩ = false ∧
      evaluateFilter row ⟨col, "greaterThan", v, v2⟩ = false ∧
      evaluateFilter row ⟨col, "lessThan", v, v2⟩ = false ∧
      evaluateFilter row ⟨col, "greaterThanOrEqual", v, v2⟩ = false ∧
      evaluateFilter row ⟨col, "lessThanOrEqual", v, v2⟩ = false ∧
      evaluateFilter row ⟨col, "between", v, v2⟩ = false ∧
      evaluateFilter row ⟨col, "notEquals", v, v2⟩ = true) ∧
    ((jsParseFloat v2).isNaN = true → evaluateFilter row ⟨col, "between", v, v2⟩ = false) :=
  ⟨fun h => eval_numeric_nan row col v v2 h,
    fun h2 => eval_between_nan_value2 row col v v2 h2⟩

/-- Witness for C3 at the concrete row `{a: "abc"}` against value `"5"`. -/
theorem c3_numeric_nan_fail_closed_witness :
    evaluateFilter [("a", .vStr "abc")] ⟨"a", "greaterThan", .vStr "5", .vUndefined⟩ = false ∧
    evaluateFilter [("a", .vStr "abc")] ⟨"a", "notEquals", .vStr "5", .vUndefined⟩ = true ∧
    evaluateFilter [("a", .vStr "1")] ⟨"a", "between", .vStr "0", .vStr "oops"⟩ = false := by
  have h1 := (c3_numeric_nan_fail_closed [("a", .vStr "abc")] "a" (.vStr "5") .vUndefined).1
    (Or.inl (by decide))
  have h2 := (c3_numeric_nan_fail_closed [("a", .vStr "1")] "a" (.vStr "0") (.vStr "oops")).2
    (by decide)
  exact ⟨h1.2.1, h1.2.2.2.2.2.2, h2⟩

/-- Counterexample for C3 as stated: the cell `"Infinity"` does not parse
to a finite number, yet `greaterThan 5` evaluates to true (and `equals
Infinity` is also true), because the code tests only `isNaN`, never
`isFinite`. -/
theorem c3_counterexample_infinity :
    (jsParseFloat (getCell [("a", Cell.vStr "Infinity")] "a")).isFinite = false ∧
    evaluateFilter [("a", .vStr "Infinity")] ⟨"a", "greaterThan", .vStr "5", .vUndefined⟩ = true ∧
    evaluateFilter [("a", .vStr "Infinity")] ⟨"a", "notEquals", .vStr "Infinity", .vUndefined⟩ =
      false := by
  decide

/-- C10 (confirmed): evaluating any condition against a row lacking the
condition's column treats the cell as `undefined` (string coercion `""`):
`isEmpty` is true, `isNotEmpty` false, every numeric-family condition except
`notEquals` false, and `notEquals` true. -/
theorem c10_missing_column (row : Row) (col : String) (v v2 : Cell)
    (h : row.find? (fun p => p.1 == col) = none) :
    getCell row col = .vUndefined ∧
    coerceCellString (getCell row col) = "" ∧
    evaluateFilter row ⟨col, "isEmpty", v, v2⟩ = true ∧
    evaluateFilter row ⟨col, "isNotEmpty", v, v2⟩ = false ∧
    evaluateFilter row ⟨col, "equals", v, v2⟩ = false ∧
    evaluateFilter row ⟨col, "greaterThan", v, v2⟩ = false ∧
    evaluateFilter row ⟨col, "lessThan", v, v2⟩ = false ∧
    evaluateFilter row ⟨col, "greaterThanOrEqual", v, v2⟩ = false ∧
    evaluateFilter row ⟨col, "lessThanOrEqual", v, v2⟩ = false ∧
    evaluateFilter row ⟨col, "between", v, v2⟩ = false ∧
    evaluateFilter row ⟨col, "notEquals", v, v2⟩ = true := by
  have hget : getCell row col = .vUndefined := by
    unfold getCell
    rw [h]
  have hnan : (jsParseFloat (getCell row col)).isNaN = true := by
    rw [hget]; decide
  have hnum := eval_numeric_nan row col v v2 (Or.inl hnan)
  refine ⟨hget, by rw [hget]; rfl, ?_, ?_, hnum.1, hnum.2.1, hnum.2.2.1, hnum.2.2.2.1,
    hnum.2.2.2.2.1, hnum.2.2.2.2.2.1, hnum.2.2.2.2.2.2⟩
  · simp [evaluateFilter, hget]
  · simp [evaluateFilter, hget]

/-- Witness for C10 at a row without the column `b`. -/
theorem c10_missing_column_witness :
    getCell [("x", Cell.vStr "1")] "b" = .vUndefined ∧
    evaluateFilter [("x", .vStr "1")] ⟨"b", "isEmpty", .vUndefined, .vUndefined⟩ = true ∧
    evaluateFilter [("x", .vStr "1")] ⟨"b", "isNotEmpty", .vUndefined, .vUndefined⟩ = false ∧
    evaluateFilter [("x", .vStr "1")] ⟨"b", "equals", .vStr "1", .vUndefined⟩ = false ∧
    evaluateFilter [("x", .vStr "1")] ⟨"b", "notEquals", .vStr "1", .vUndefined⟩ = true := by
  have h := c10_missing_column [("x", .vStr "1")] "b" (.vStr "1") .vUndefined (by decide)
  have h' := c10_missing_column [("x", .vStr "1")] "b" .vUndefined .vUndefined (by decide)
  exact ⟨h.1, h'.2.2.1, h'.2.2.2.1, h.2.2.2.2.1, h.2.2.2.2.2.2.2.2.2.2⟩

/-- Helper: pushing a row into the index appends it to exactly its key's
bucket. -/
lemma mapGet_mapPush (m : RefMap) (k0 k : String) (r : Row) :
    mapGet (mapPush m k0 r) k = mapGet m k ++ (if k0 == k then [r] else []) := by
  unfold mapPush mapGet
  cases hany : m.any (fun p => p.1 == k0) with
  | true =>
    simp only [hany, if_true]
    rw [List.find?_map]
    have hpf : ((fun q : String × List Row => q.1 == k) ∘
        fun q => if q.1 == k0 then (q.1, q.2 ++ [r]) else q) =
        fun q : String × List Row => q.1 == k := by
      funext q
      by_cases hq : q.1 = k0 <;> simp [hq]
    rw [hpf]
    cases hfind : m.find? (fun q => q.1 == k) with
    | none =>
      by_cases hk : k0 = k
      · exfalso
        rw [List.find?_eq_none] at hfind
        rw [List.any_eq_true] at hany
        obtain ⟨q, hq, hqk⟩ := hany
        refine hfind q hq ?_
        have hq1 : q.1 = k0 := by simpa using hqk
        simp [hq1, hk]
      · simp [hk]
    | some q =>
      have hqk : q.1 = k := by simpa using List.find?_some hfind
      by_cases hk : q.1 = k0
      · have hk0 : k0 = k := by rw [← hk, hqk]
        simp [hk, hk0]
      · have hk0 : ¬(k0 = k) := by
          intro hkk
          exact hk (by rw [hqk, hkk])
        simp [hk, hk0]
  | false =>
    simp only [hany, Bool.false_eq_true, if_false]
    rw [List.find?_append]
    cases hfind : m.find? (fun q => q.1 == k) with
    | some q =>
      have hqk : q.1 = k := by simpa using List.find?_some hfind
      have hk0 : ¬(k0 = k) := by
        intro hkk
        rw [List.any_eq_false] at hany
        exact hany q (List.mem_of_find?_eq_some hfind) (by simp [hqk, hkk])
      simp [hk0, List.find?]
    | none =>
      by_cases hk : k0 = k
      · simp [hk, List.find?]
      · have hkb : (k0 == k) = false := by simp [hk]
        simp [hk, hkb, List.find?]

/-- Helper: the bucket of a key in the built index, starting from any
accumulator. -/
lemma mapGet_buildRefMap_aux (keyColumns : List KeyColumn) (rows : List Row) (m : RefMap)
    (k : String) :
    mapGet (rows.foldl (fun m r => mapPush m (refCompositeKey keyColumns r) r) m) k =
      mapGet m k ++ rows.filter (fun r => refCompositeKey keyColumns r == k) := by
  induction rows generalizing m with
  | nil => simp
  | cons r t ih =>
    simp only [List.foldl_cons, List.filter_cons]
    rw [ih, mapGet_mapPush]
    by_cases h : refCompositeKey keyColumns r == k <;> simp [h]

/-- Helper: the bucket of a key is exactly the reference rows whose
composite key equals it, in order. -/
lemma mapGet_buildRefMap (keyColumns : List KeyColumn) (rows : List Row) (k : String) :
    mapGet (buildRefMap keyColumns rows) k =
      rows.filter (fun r => refCompositeKey keyColumns r == k) := by
  unfold buildRefMap
  rw [mapGet_buildRefMap_aux]
  simp [mapGet, List.find?]

/-- C4 (confirmed): a reference row sits in the bucket looked up for a
primary row exactly when their composite keys — normalized per-column
components joined by the `|||` sentinel in key-pair order — are equal
strings; normalization makes `"ABC "` and `"abc"` match and coerces
null/undefined components to the empty string. -/
theorem c4_composite_key_matching :
    (∀ (keyColumns : List KeyColumn) (refRows : List Row) (refRow primaryRow : Row),
      refRow ∈ mapGet (buildRefMap keyColumns refRows)
          (primaryCompositeKey keyColumns primaryRow) ↔
        refRow ∈ refRows ∧
          refCompositeKey keyColumns refRow = primaryCompositeKey keyColumns primaryRow) ∧
    normalizeKeyComponent (.vStr "ABC ") = normalizeKeyComponent (.vStr "abc") ∧
    normalizeKeyComponent .vNull = "" ∧ normalizeKeyComponent .vUndefined = "" := by
  refine ⟨?_, by decide, rfl, rfl⟩
  intro keyColumns refRows refRow primaryRow
  rw [mapGet_buildRefMap]
  simp [List.mem_filter]

/-- Helper: for any join type other than `"left"`, the per-row join loop
body behaves exactly as for `"inner"`. -/
lemma joinEmit_not_left (refMap : RefMap) (keyColumns : List KeyColumn)
    (refHeaders : List String) (joinType : String) (h : joinType ≠ "left") :
    joinEmit refMap keyColumns refHeaders joinType =
      joinEmit refMap keyColumns refHeaders "inner" := by
  funext p
  have hb : (joinType == "left") = false := by simp [h]
  simp [joinEmit, hb]

/-- C9 (confirmed): for every `joinType` other than `"left"` — unknown
strings included, and the omitted default is `"inner"` — the handler result
equals the `"inner"` result, and a primary row with an empty bucket
contributes no output rows. -/
theorem c9_non_left_is_inner (referenceData primaryData : List Row)
    (keyColumns : List KeyColumn) (filterConditions : List FilterCond)
    (logicOperator joinType : String) (h : joinType ≠ "left") :
    referenceFilter referenceData primaryData keyColumns filterConditions logicOperator
        joinType =
      referenceFilter referenceData primaryData keyColumns filterConditions logicOperator
        "inner" ∧
    (∀ (refMap : RefMap) (refHeaders : List String) (primaryRow : Row),
      mapGet refMap (primaryCompositeKey keyColumns primaryRow) = [] →
      joinEmit refMap keyColumns refHeaders joinType primaryRow = []) := by
  constructor
  · have hemit : ∀ (m : RefMap) (hs : List String),
        joinEmit m keyColumns hs joinType = joinEmit m keyColumns hs "inner" :=
      fun m hs => joinEmit_not_left m keyColumns hs joinType h
    unfold referenceFilter
    simp only [hemit]
  · intro refMap refHeaders primaryRow hempty
    have hb : (joinType == "left") = false := by simp [h]
    simp [joinEmit, hempty, hb]

/-- Witness for C9 with the unknown join type `"outer"`. -/
theorem c9_non_left_is_inner_witness :
    referenceFilter [[("id", Cell.vStr "A1")]]
        [[("id", Cell.vStr "a1")], [("id", Cell.vStr "B2")]]
        [⟨"id", "id"⟩] [] "AND" "outer" =
      referenceFilter [[("id", Cell.vStr "A1")]]
        [[("id", Cell.vStr "a1")], [("id", Cell.vStr "B2")]]
        [⟨"id", "id"⟩] [] "AND" "inner" ∧
    joinEmit [] [⟨"id", "id"⟩] ["id"] "outer" [("id", Cell.vStr "B2")] = [] := by
  have h := c9_non_left_is_inner [[("id", Cell.vStr "A1")]]
    [[("id", Cell.vStr "a1")], [("id", Cell.vStr "B2")]]
    [⟨"id", "id"⟩] [] "AND" "outer" (by decide)
  exact ⟨h.1, h.2 [] ["id"] [("id", Cell.vStr "B2")] rfl⟩

/-- Helper: the ceiling of an integer quotient as integer division. -/
lemma int_ceil_div_eq (n k : ℤ) (hk : 1 ≤ k) :
    ⌈(n : ℚ) / (k : ℚ)⌉ = (n + k - 1) / k := by
  have hk0 : (0 : ℚ) < (k : ℚ) := by exact_mod_cast (by omega : (0 : ℤ) < k)
  have hdm : k * ((n + k - 1) / k) + (n + k - 1) % k = n + k - 1 :=
    Int.ediv_add_emod (n + k - 1) k
  have hr0 : 0 ≤ (n + k - 1) % k := Int.emod_nonneg _ (by omega)
  have hrk : (n + k - 1) % k < k := Int.emod_lt_of_pos _ (by omega)
  rw [Int.ceil_eq_iff]
  constructor
  · rw [lt_div_iff₀ hk0]
    have hz : ((n + k - 1) / k - 1) * k < n := by nlinarith [hdm, hr0]
    exact_mod_cast hz
  · rw [div_le_iff₀ hk0]
    have hz : n ≤ (n + k - 1) / k * k := by nlinarith [hdm, hrk]
    exact_mod_cast hz

/-- Helper: a page index is below the ceiling page count exactly when the
page's start offset is below the row count. -/
lemma lt_ceil_div (n k p : ℤ) (hk : 1 ≤ k) :
    p < ⌈(n : ℚ) / (k : ℚ)⌉ ↔ p * k < n := by
  have hk0 : (0 : ℚ) < (k : ℚ) := by exact_mod_cast (by omega : (0 : ℤ) < k)
  rw [Int.lt_ceil, lt_div_iff₀ hk0]
  exact_mod_cast Iff.rfl

/-- Helper: the clipped slice of a nonnegative window is drop-then-take. -/
lemma jsSlice_nonneg {α : Type} (l : List α) (a b : ℤ) (ha : 0 ≤ a) (hb : 0 ≤ b) :
    jsSlice l a (a + b) = (l.drop a.toNat).take b.toNat := by
  unfold jsSlice
  have hab : 0 ≤ a + b := by omega
  simp only [not_lt.mpr ha, not_lt.mpr hab, if_false]
  by_cases hlen : a ≤ (l.length : ℤ)
  · have h1 : (min a (l.length : ℤ)).toNat = a.toNat := by omega
    have h2 : (min (a + b) (l.length : ℤ) - min a (l.length : ℤ)).toNat =
        min b.toNat (l.length - a.toNat) := by omega
    rw [h1, h2]
    have hdl : (l.drop a.toNat).length = l.length - a.toNat := List.length_drop _ _
    rw [List.take_eq_take]
    omega
  · have h1 : (min a (l.length : ℤ)).toNat = l.length := by omega
    have h2 : (min (a + b) (l.length : ℤ) - min a (l.length : ℤ)).toNat = 0 := by omega
    rw [h1, h2]
    have hd2 : l.drop a.toNat = [] := List.drop_eq_nil_of_le (by omega)
    simp [hd2, List.drop_length]

/-- C8 (confirmed): paging returns the contiguous slice
`[(page-1)*pageSize, page*pageSize)` clipped to the sequence, reports
`totalPages = ⌈rows / pageSize⌉` (expressed here by integer division) and
`hasMore` exactly when a further page exists (`page < totalPages`). -/
theorem c8_pagination (l : List Row) (p k : Int) (hp : 1 ≤ p) (hk : 1 ≤ k) :
    (paginate l p k).data = (l.drop ((p - 1) * k).toNat).take k.toNat ∧
    (paginate l p k).totalPages = ((l.length : Int) + k - 1) / k ∧
    ((paginate l p k).hasMore = true ↔ p < (paginate l p k).totalPages) ∧
    (paginate l p k).currentPage = p := by
  have hstart : 0 ≤ (p - 1) * k := mul_nonneg (by omega) (by omega)
  refine ⟨?_, ?_, ?_, rfl⟩
  · show jsSlice l ((p - 1) * k) ((p - 1) * k + k) = _
    exact jsSlice_nonneg l ((p - 1) * k) k hstart (by omega)
  · exact int_ceil_div_eq (l.length : Int) k hk
  · show decide ((p - 1) * k + k < (l.length : Int)) = true ↔
      p < ⌈((l.length : Int) : ℚ) / (k : ℚ)⌉
    rw [decide_eq_true_iff, lt_ceil_div (l.length : Int) k p hk]
    constructor <;> intro h <;> nlinarith [h]

set_option maxRecDepth 100000 in
/-- Witness for C8: 205 rows at page size 50 give a five-row page 5,
`totalPages = 5` and `hasMore = false`. -/
theorem c8_pagination_witness :
    (paginate (List.replicate 205 ([] : Row)) 5 50).data.length = 5 ∧
    (paginate (List.replicate 205 ([] : Row)) 5 50).totalPages = 5 ∧
    (paginate (List.replicate 205 ([] : Row)) 5 50).hasMore = false := by
  have h := c8_pagination (List.replicate 205 ([] : Row)) 5 50 (by decide) (by decide)
  refine ⟨?_, ?_, ?_⟩
  · rw [h.1]; decide
  · rw [h.2.1]; decide
  · have h5 : ¬((5 : ℤ) < (paginate (List.replicate 205 ([] : Row)) 5 50).totalPages) := by
      rw [h.2.1]; decide
    cases hb : (paginate (List.replicate 205 ([] : Row)) 5 50).hasMore
    · rfl
    · exact absurd (h.2.2.1.mp hb) h5

/-- Helper: a non-nil list is not `isEmpty`. -/
lemma isEmpty_false_of_ne_nil {α : Type} {l : List α} (h : l ≠ []) : l.isEmpty = false := by
  cases l with
  | nil => exact absurd rfl h
  | cons a t => rfl

/-- Helper: when some requested key column is missing, the validation loop
returns the error of the first offending column, which names that column
and its side. -/
lemma validateKeyColumns_missing (keyColumns : List KeyColumn) (refH primH : List String)
    (h : ∃ kc ∈ keyColumns,
      refH.contains kc.refColumn = false ∨ primH.contains kc.primaryColumn = false) :
    ∃ kc ∈ keyColumns,
      (refH.contains kc.refColumn = false ∧
        validateKeyColumns keyColumns refH primH = some (refColumnError kc.refColumn)) ∨
      (primH.contains kc.primaryColumn = false ∧
        validateKeyColumns keyColumns refH primH = some (primaryColumnError kc.primaryColumn)) := by
  induction keyColumns with
  | nil => simp at h
  | cons kc rest ih =>
    by_cases h1 : refH.contains kc.refColumn
    · have h1m : kc.refColumn ∈ refH := by simpa using h1
      by_cases h2 : primH.contains kc.primaryColumn
      · have h2m : kc.primaryColumn ∈ primH := by simpa using h2
        have hrest : ∃ kc' ∈ rest,
            refH.contains kc'.refColumn = false ∨ primH.contains kc'.primaryColumn = false := by
          obtain ⟨kc', hmem, hbad⟩ := h
          rcases List.mem_cons.mp hmem with rfl | hmem'
          · rcases hbad with hb | hb
            · rw [h1] at hb; cases hb
            · rw [h2] at hb; cases hb
          · exact ⟨kc', hmem', hbad⟩
        obtain ⟨kc', hmem, hcase⟩ := ih hrest
        refine ⟨kc', List.mem_cons_of_mem _ hmem, ?_⟩
        have hv : validateKeyColumns (kc :: rest) refH primH =
            validateKeyColumns rest refH primH := by
          have hb1 : (!refH.contains kc.refColumn) = false := by rw [h1]; rfl
          have hb2 : (!primH.contains kc.primaryColumn) = false := by rw [h2]; rfl
          simp only [validateKeyColumns, hb1, hb2, Bool.false_eq_true, if_false]
        rw [hv]
        exact hcase
      · have h2m : ¬kc.primaryColumn ∈ primH := by simpa using h2
        refine ⟨kc, List.mem_cons_self _ _,
          Or.inr ⟨by simpa using h2, ?_⟩⟩
        unfold validateKeyColumns
        simp [h1m, h2m]
    · have h1m : ¬kc.refColumn ∈ refH := by simpa using h1
      refine ⟨kc, List.mem_cons_self _ _,
        Or.inl ⟨by simpa using h1, ?_⟩⟩
      unfold validateKeyColumns
      simp [h1m]

/-- C6 (confirmed): the handler fails with a validation error — returning
no partial result — when the reference set is empty, when the primary set
is empty, and when any requested key column is absent from its side's
header; in the last case the error message names the offending column and
side. -/
theorem c6_validation_errors (referenceData primaryData : List Row)
    (keyColumns : List KeyColumn) (filterConditions : List FilterCond)
    (logicOperator joinType : String) :
    (referenceData = [] →
      referenceFilter referenceData primaryData keyColumns filterConditions logicOperator
        joinType = .error "Reference data must be provided as a non-empty array") ∧
    (referenceData ≠ [] → primaryData = [] →
      referenceFilter referenceData primaryData keyColumns filterConditions logicOperator
        joinType = .error "Primary data must be provided as a non-empty array") ∧
    (referenceData ≠ [] → primaryData ≠ [] →
      (∃ kc ∈ keyColumns,
        (objectKeys (referenceData.headD [])).contains kc.refColumn = false ∨
        (objectKeys (primaryData.headD [])).contains kc.primaryColumn = false) →
      ∃ kc ∈ keyColumns,
        ((objectKeys (referenceData.headD [])).contains kc.refColumn = false ∧
          referenceFilter referenceData primaryData keyColumns filterConditions logicOperator
            joinType = .error (refColumnError kc.refColumn)) ∨
        ((objectKeys (primaryData.headD [])).contains kc.primaryColumn = false ∧
          referenceFilter referenceData primaryData keyColumns filterConditions logicOperator
            joinType = .error (primaryColumnError kc.primaryColumn))) := by
  refine ⟨?_, ?_, ?_⟩
  · intro h
    unfold referenceFilter
    simp [h]
  · intro h1 h2
    unfold referenceFilter
    simp [h1, h2]
  · intro h1 h2 hex
    have h3 : keyColumns ≠ [] := by
      obtain ⟨kc, hmem, _⟩ := hex
      exact List.ne_nil_of_mem hmem
    obtain ⟨kc, hmem, hcase⟩ := validateKeyColumns_missing keyColumns _ _ hex
    refine ⟨kc, hmem, ?_⟩
    have e1 := isEmpty_false_of_ne_nil h1
    have e2 := isEmpty_false_of_ne_nil h2
    have e3 := isEmpty_false_of_ne_nil h3
    rcases hcase with ⟨hc, hv⟩ | ⟨hc, hv⟩
    · refine Or.inl ⟨hc, ?_⟩
      unfold referenceFilter
      simp only [e1, e2, e3, Bool.false_eq_true, if_false, hv]
    · refine Or.inr ⟨hc, ?_⟩
      unfold referenceFilter
      simp only [e1, e2, e3, Bool.false_eq_true, if_false, hv]

/-- Witness for C6: a key pair whose primary-side column is missing. -/
theorem c6_validation_errors_witness :
    (∃ kc ∈ [(⟨"id", "id"⟩ : KeyColumn)],
      ((objectKeys (([[("id", Cell.vStr "A")]] : List Row).headD [])).contains kc.refColumn =
          false ∧
        referenceFilter [[("id", Cell.vStr "A")]] [[("name", Cell.vStr "B")]]
          [⟨"id", "id"⟩] [] "AND" "inner" = .error (refColumnError kc.refColumn)) ∨
      ((objectKeys (([[("name", Cell.vStr "B")]] : List Row).headD [])).contains
          kc.primaryColumn = false ∧
        referenceFilter [[("id", Cell.vStr "A")]] [[("name", Cell.vStr "B")]]
          [⟨"id", "id"⟩] [] "AND" "inner" = .error (primaryColumnError kc.primaryColumn))) ∧
    referenceFilter [] [[("name", Cell.vStr "B")]] [⟨"id", "id"⟩] [] "AND" "inner" =
      .error "Reference data must be provided as a non-empty array" ∧
    referenceFilter [[("id", Cell.vStr "A")]] [] [⟨"id", "id"⟩] [] "AND" "inner" =
      .error "Primary data must be provided as a non-empty array" := by
  have h := c6_validation_errors [[("id", Cell.vStr "A")]] [[("name", Cell.vStr "B")]]
    [⟨"id", "id"⟩] [] "AND" "inner"
  have hempty1 := c6_validation_errors [] [[("name", Cell.vStr "B")]]
    [⟨"id", "id"⟩] [] "AND" "inner"
  have hempty2 := c6_validation_errors [[("id", Cell.vStr "A")]] []
    [⟨"id", "id"⟩] [] "AND" "inner"
  refine ⟨?_, hempty1.1 rfl, hempty2.2.1 (by decide) rfl⟩
  exact h.2.2 (by decide) (by decide) ⟨⟨"id", "id"⟩, by decide, Or.inr (by decide)⟩

/-- Helper: the `ref_` prefix is injective on column names. -/
lemma ref_prefix_inj {a b : String} (h : ("ref_" ++ a : String) = "ref_" ++ b) : a = b := by
  have hd := congrArg String.data h
  simp only [String.data_append] at hd
  exact String.ext (List.append_cancel_left hd)

/-- Helper: property access after property assignment. -/
lemma getCell_setCell (row : Row) (k : String) (v : Cell) (k' : String) :
    getCell (setCell row k v) k' = if k' = k then v else getCell row k' := by
  unfold setCell getCell
  cases hany : row.any (fun p => p.1 == k) with
  | true =>
    simp only [hany, if_true]
    rw [List.find?_map]
    have hpf : ((fun q : String × Cell => q.1 == k') ∘
        fun q => if q.1 == k then (q.1, v) else q) = fun q : String × Cell => q.1 == k' := by
      funext q
      by_cases hq : q.1 = k <;> simp [hq]
    rw [hpf]
    by_cases hk : k' = k
    · subst hk
      rw [List.any_eq_true] at hany
      obtain ⟨q, hqmem, hqk⟩ := hany
      have hsome : (row.find? fun q => q.1 == k').isSome :=
        List.find?_isSome.mpr ⟨q, hqmem, hqk⟩
      obtain ⟨q0, hq0⟩ := Option.isSome_iff_exists.mp hsome
      have hq0k : q0.1 = k' := by simpa using List.find?_some hq0
      simp [hq0, hq0k]
    · cases hfind : row.find? fun q => q.1 == k' with
      | none => simp [hfind, hk]
      | some q0 =>
        have hq0k : q0.1 = k' := by simpa using List.find?_some hfind
        have hq0nk : ¬(q0.1 = k) := by rw [hq0k]; exact hk
        simp [hfind, hk, hq0nk]
  | false =>
    simp only [hany, Bool.false_eq_true, if_false]
    rw [List.find?_append]
    cases hfind : row.find? fun q => q.1 == k' with
    | some q0 =>
      have hq0k : q0.1 = k' := by simpa using List.find?_some hfind
      have hk : ¬(k' = k) := by
        intro hkk
        rw [List.any_eq_false] at hany
        exact hany q0 (List.mem_of_find?_eq_some hfind) (by simp [hq0k, hkk])
      simp [hfind, hk]
    | none =>
      by_cases hk : k' = k
      · simp [hfind, hk, List.find?]
      · have hkb : (k == k') = false := beq_eq_false_iff_ne.mpr (fun h => hk h.symm)
        simp [hfind, hk, hkb, List.find?]

/-- Helper: a fold of `ref_`-prefixed assignments leaves every other key
untouched. -/
lemma getCell_fold_set_other (w : String → Cell) (hs : List String) (row : Row) (k : String)
    (hk : ∀ x ∈ hs, ¬("ref_" ++ x = k)) :
    getCell (hs.foldl (fun acc x => setCell acc ("ref_" ++ x) (w x)) row) k = getCell row k := by
  induction hs generalizing row with
  | nil => rfl
  | cons x t ih =>
    simp only [List.foldl_cons]
    rw [ih (setCell row ("ref_" ++ x) (w x)) (fun y hy => hk y (List.mem_cons_of_mem _ hy)),
      getCell_setCell]
    have hkx : ¬(k = "ref_" ++ x) := fun h => hk x (List.mem_cons_self _ _) h.symm
    simp [hkx]

/-- Helper: after a fold of `ref_`-prefixed assignments, every assigned key
reads back its assigned value. -/
lemma getCell_fold_set_mem (w : String → Cell) (hs : List String) (row : Row) (h : String)
    (hmem : h ∈ hs) :
    getCell (hs.foldl (fun acc x => setCell acc ("ref_" ++ x) (w x)) row) ("ref_" ++ h) =
      w h := by
  induction hs generalizing row with
  | nil => cases hmem
  | cons x t ih =>
    simp only [List.foldl_cons]
    rcases List.mem_cons.mp hmem with rfl | hmem'
    · by_cases hx : h ∈ t
      · exact ih (setCell row ("ref_" ++ h) (w h)) hx
      · rw [getCell_fold_set_other w t _ ("ref_" ++ h)
          (fun y hy heq => hx (ref_prefix_inj heq ▸ hy)), getCell_setCell]
        simp
    · exact ih (setCell row ("ref_" ++ x) (w x)) hmem'

/-- C5 (amended): provided no primary column is itself named
`ref_<reference column>`, a merged row keeps every primary column verbatim
(never overwritten) and adds every reference column under the `ref_`
prefix, even when a reference column name collides with a primary column
name; the output header is the primary header followed by every reference
header `ref_`-prefixed, never deduplicated.  (A primary column literally
named `ref_<c>` for a reference column `c` IS overwritten — see the
counterexample.) -/
theorem c5_merge_prefixed (refHeaders : List String) (primaryRow refRow : Row)
    (h : ∀ x ∈ refHeaders, ("ref_" ++ x) ∉ objectKeys primaryRow) :
    (∀ k ∈ objectKeys primaryRow,
      getCell (mergeRow refHeaders primaryRow refRow) k = getCell primaryRow k) ∧
    (∀ x ∈ refHeaders,
      getCell (mergeRow refHeaders primaryRow refRow) ("ref_" ++ x) = getCell refRow x) ∧
    (∀ (referenceData primaryData : List Row) (keyColumns : List KeyColumn)
        (filterConditions : List FilterCond) (logicOperator joinType : String)
        (out : RefFilterOutput),
      referenceFilter referenceData primaryData keyColumns filterConditions logicOperator
          joinType = .ok out →
      out.headers = objectKeys (primaryData.headD []) ++
        (objectKeys (referenceData.headD [])).map (fun x => "ref_" ++ x)) := by
  refine ⟨?_, ?_, ?_⟩
  · intro k hk
    exact getCell_fold_set_other (fun x => getCell refRow x) refHeaders primaryRow k
      (fun x hx heq => h x hx (heq ▸ hk))
  · intro x hx
    exact getCell_fold_set_mem (fun x => getCell refRow x) refHeaders primaryRow x hx
  · intro referenceData primaryData keyColumns filterConditions logicOperator joinType out hok
    unfold referenceFilter at hok
    by_cases e1 : referenceData.isEmpty
    · rw [if_pos e1] at hok; cases hok
    · rw [if_neg e1] at hok
      by_cases e2 : primaryData.isEmpty
      · rw [if_pos e2] at hok; cases hok
      · rw [if_neg e2] at hok
        by_cases e3 : keyColumns.isEmpty
        · rw [if_pos e3] at hok; cases hok
        · rw [if_neg e3] at hok
          cases hv : validateKeyColumns keyColumns (objectKeys (referenceData.headD []))
              (objectKeys (primaryData.headD [])) with
          | some msg =>
            simp only [hv] at hok
            exact Except.noConfusion hok
          | none =>
            simp only [hv, Except.ok.injEq] at hok
            subst hok
            rfl

/-- Witness for C5 with disjoint header names. -/
theorem c5_merge_prefixed_witness :
    getCell (mergeRow ["b"] [("a", Cell.vStr "1")] [("b", Cell.vStr "2")]) "a" =
      Cell.vStr "1" ∧
    getCell (mergeRow ["b"] [("a", Cell.vStr "1")] [("b", Cell.vStr "2")]) "ref_b" =
      Cell.vStr "2" := by
  have h := c5_merge_prefixed ["b"] [("a", Cell.vStr "1")] [("b", Cell.vStr "2")] (by decide)
  exact ⟨h.1 "a" (by decide), h.2.1 "b" (by decide)⟩

/-- Counterexample for C5 as stated: a primary column literally named
`ref_x` is overwritten by the prefixed copy of reference column `x` — the
primary row carries `ref_x: "1"` but the merged row reads `ref_x: "2"`. -/
theorem c5_counterexample_prefix_collision :
    (referenceFilter [[("id", Cell.vStr "a"), ("x", Cell.vStr "2")]]
        [[("id", Cell.vStr "a"), ("ref_x", Cell.vStr "1")]]
        [⟨"id", "id"⟩] [] "AND" "inner").map
      (fun o => o.data.map (fun r => getCell r "ref_x")) = .ok [Cell.vStr "2"] ∧
    getCell [("id", Cell.vStr "a"), ("ref_x", Cell.vStr "1")] "ref_x" = Cell.vStr "1" :=
  ⟨rfl, rfl⟩

/-- Helper: the row count one primary row contributes to a left join. -/
lemma joinEmit_left_length (m : RefMap) (keyColumns : List KeyColumn) (hs : List String)
    (p : Row) :
    (joinEmit m keyColumns hs "left" p).length =
      max 1 (mapGet m (primaryCompositeKey keyColumns p)).length := by
  unfold joinEmit
  cases hmg : mapGet m (primaryCompositeKey keyColumns p) with
  | nil => simp
  | cons a t =>
    simp only [hmg]
    simp

/-- Helper: the sum of ones over a list is its length. -/
lemma sum_map_one {α : Type} (l : List α) : (l.map (fun _ => (1 : ℕ))).sum = l.length := by
  induction l with
  | nil => rfl
  | cons a t ih => simp [ih, Nat.add_comm]

/-- Helper: the handler's result when every validation passes. -/
lemma referenceFilter_ok_eq (referenceData primaryData : List Row)
    (keyColumns : List KeyColumn) (filterConditions : List FilterCond)
    (logicOperator joinType : String)
    (h1 : referenceData ≠ []) (h2 : primaryData ≠ []) (h3 : keyColumns ≠ [])
    (h4 : validateKeyColumns keyColumns (objectKeys (referenceData.headD []))
      (objectKeys (primaryData.headD [])) = none) :
    referenceFilter referenceData primaryData keyColumns filterConditions logicOperator
        joinType = .ok {
      data := primaryData.flatMap (joinEmit
        (buildRefMap keyColumns (filteredReference referenceData filterConditions logicOperator))
        keyColumns (objectKeys (referenceData.headD [])) joinType)
      headers := objectKeys (primaryData.headD []) ++
        (objectKeys (referenceData.headD [])).map (fun h => "ref_" ++ h)
      totalRows := (primaryData.flatMap (joinEmit
        (buildRefMap keyColumns (filteredReference referenceData filterConditions logicOperator))
        keyColumns (objectKeys (referenceData.headD [])) joinType)).length
      originalPrimaryRows := primaryData.length
      filteredRefRows := (filteredReference referenceData filterConditions logicOperator).length
      matchedRows := (matchedPrimaryKeys
        (buildRefMap keyColumns (filteredReference referenceData filterConditions logicOperator))
        keyColumns primaryData).length } := by
  have e1 := isEmpty_false_of_ne_nil h1
  have e2 := isEmpty_false_of_ne_nil h2
  have e3 := isEmpty_false_of_ne_nil h3
  unfold referenceFilter
  simp only [e1, e2, e3, Bool.false_eq_true, if_false, h4]

/-- C1 (amended): for every non-empty primary and reference set passing
validation, a left join emits one merged row per (primary row, matching
reference row) pair plus exactly one row per unmatched primary row, whose
`ref_`-prefixed cells are all null; the total row count is the sum over
primary rows of `max 1 (bucket size)`, and it equals the primary row count
exactly when no composite key matches more than one filtered reference row
(which the original claim tacitly assumed — see the counterexample). -/
theorem c1_left_join_rows (referenceData primaryData : List Row)
    (keyColumns : List KeyColumn) (filterConditions : List FilterCond)
    (logicOperator : String)
    (h1 : referenceData ≠ []) (h2 : primaryData ≠ []) (h3 : keyColumns ≠ [])
    (h4 : validateKeyColumns keyColumns (objectKeys (referenceData.headD []))
      (objectKeys (primaryData.headD [])) = none) :
    ∃ out, referenceFilter referenceData primaryData keyColumns filterConditions
        logicOperator "left" = .ok out ∧
      out.data = primaryData.flatMap (joinEmit
        (buildRefMap keyColumns (filteredReference referenceData filterConditions logicOperator))
        keyColumns (objectKeys (referenceData.headD [])) "left") ∧
      out.data.length = (primaryData.map (fun p => max 1 (mapGet
        (buildRefMap keyColumns (filteredReference referenceData filterConditions logicOperator))
        (primaryCompositeKey keyColumns p)).length)).sum ∧
      (∀ p ∈ primaryData,
        mapGet (buildRefMap keyColumns
          (filteredReference referenceData filterConditions logicOperator))
          (primaryCompositeKey keyColumns p) = [] →
        joinEmit (buildRefMap keyColumns
            (filteredReference referenceData filterConditions logicOperator))
          keyColumns (objectKeys (referenceData.headD [])) "left" p =
          [leftNullRow (objectKeys (referenceData.headD [])) p] ∧
        ∀ x ∈ objectKeys (referenceData.headD []),
          getCell (leftNullRow (objectKeys (referenceData.headD [])) p) ("ref_" ++ x) =
            Cell.vNull) ∧
      ((∀ p ∈ primaryData,
          (mapGet (buildRefMap keyColumns
            (filteredReference referenceData filterConditions logicOperator))
            (primaryCompositeKey keyColumns p)).length ≤ 1) →
        out.data.length = primaryData.length) := by
  have hok := referenceFilter_ok_eq referenceData primaryData keyColumns filterConditions
    logicOperator "left" h1 h2 h3 h4
  have hsum : (primaryData.flatMap (joinEmit
      (buildRefMap keyColumns (filteredReference referenceData filterConditions logicOperator))
      keyColumns (objectKeys (referenceData.headD [])) "left")).length =
      (primaryData.map (fun p => max 1 (mapGet
        (buildRefMap keyColumns (filteredReference referenceData filterConditions logicOperator))
        (primaryCompositeKey keyColumns p)).length)).sum := by
    rw [List.length_flatMap]
    apply congrArg List.sum
    apply List.map_congr_left
    intro p _
    exact joinEmit_left_length _ keyColumns _ p
  refine ⟨_, hok, rfl, hsum, ?_, ?_⟩
  · intro p hp hempty
    constructor
    · simp [joinEmit, hempty]
    · intro x hx
      exact getCell_fold_set_mem (fun _ => Cell.vNull) _ p x hx
  · intro hall
    rw [hsum]
    have hone : primaryData.map (fun p => max 1 (mapGet
        (buildRefMap keyColumns (filteredReference referenceData filterConditions logicOperator))
        (primaryCompositeKey keyColumns p)).length) = primaryData.map (fun _ => 1) := by
      apply List.map_congr_left
      intro p hp
      have := hall p hp
      omega
    rw [hone, sum_map_one]

/-- Witness for C1: Scenario C of the design — one matched and one
unmatched primary row under a left join. -/
theorem c1_left_join_rows_witness :
    ∃ out, referenceFilter [[("id", Cell.vStr "A1"), ("region", Cell.vStr "East")]]
        [[("id", Cell.vStr "a1"), ("name", Cell.vStr "Bob")],
          [("id", Cell.vStr "B2"), ("name", Cell.vStr "Sue")]]
        [⟨"id", "id"⟩] [] "AND" "left" = .ok out ∧
      out.data = [[("id", Cell.vStr "a1"), ("name", Cell.vStr "Bob")],
          [("id", Cell.vStr "B2"), ("name", Cell.vStr "Sue")]].flatMap (joinEmit
        (buildRefMap [⟨"id", "id"⟩] (filteredReference
          [[("id", Cell.vStr "A1"), ("region", Cell.vStr "East")]] [] "AND"))
        [⟨"id", "id"⟩]
        (objectKeys (([[("id", Cell.vStr "A1"), ("region", Cell.vStr "East")]] :
          List Row).headD [])) "left") ∧
      out.data.length = ([[("id", Cell.vStr "a1"), ("name", Cell.vStr "Bob")],
          [("id", Cell.vStr "B2"), ("name", Cell.vStr "Sue")]].map (fun p =>
        max 1 (mapGet (buildRefMap [⟨"id", "id"⟩] (filteredReference
            [[("id", Cell.vStr "A1"), ("region", Cell.vStr "East")]] [] "AND"))
          (primaryCompositeKey [⟨"id", "id"⟩] p)).length)).sum ∧
      (∀ p ∈ [[("id", Cell.vStr "a1"), ("name", Cell.vStr "Bob")],
          [("id", Cell.vStr "B2"), ("name", Cell.vStr "Sue")]],
        mapGet (buildRefMap [⟨"id", "id"⟩] (filteredReference
          [[("id", Cell.vStr "A1"), ("region", Cell.vStr "East")]] [] "AND"))
          (primaryCompositeKey [⟨"id", "id"⟩] p) = [] →
        joinEmit (buildRefMap [⟨"id", "id"⟩] (filteredReference
            [[("id", Cell.vStr "A1"), ("region", Cell.vStr "East")]] [] "AND"))
          [⟨"id", "id"⟩]
          (objectKeys (([[("id", Cell.vStr "A1"), ("region", Cell.vStr "East")]] :
            List Row).headD [])) "left" p =
          [leftNullRow (objectKeys (([[("id", Cell.vStr "A1"),
            ("region", Cell.vStr "East")]] : List Row).headD [])) p] ∧
        ∀ x ∈ objectKeys (([[("id", Cell.vStr "A1"), ("region", Cell.vStr "East")]] :
            List Row).headD []),
          getCell (leftNullRow (objectKeys (([[("id", Cell.vStr "A1"),
            ("region", Cell.vStr "East")]] : List Row).headD [])) p) ("ref_" ++ x) =
            Cell.vNull) ∧
      ((∀ p ∈ [[("id", Cell.vStr "a1"), ("name", Cell.vStr "Bob")],
          [("id", Cell.vStr "B2"), ("name", Cell.vStr "Sue")]],
          (mapGet (buildRefMap [⟨"id", "id"⟩] (filteredReference
            [[("id", Cell.vStr "A1"), ("region", Cell.vStr "East")]] [] "AND"))
            (primaryCompositeKey [⟨"id", "id"⟩] p)).length ≤ 1) →
        out.data.length = [[("id", Cell.vStr "a1"), ("name", Cell.vStr "Bob")],
          [("id", Cell.vStr "B2"), ("name", Cell.vStr "Sue")]].length) :=
  c1_left_join_rows _ _ _ _ _ (by decide) (by decide) (by decide) (by decide)

/-- Counterexample for C1 as stated: one primary row whose key matches two
reference rows makes the left join emit two rows, not "exactly as many rows
as there are primary rows". -/
theorem c1_counterexample_fanout :
    (referenceFilter [[("id", Cell.vStr "a"), ("x", Cell.vStr "1")],
        [("id", Cell.vStr "a"), ("x", Cell.vStr "2")]]
      [[("id", Cell.vStr "a")]] [⟨"id", "id"⟩] [] "AND" "left").map
        (fun o => o.data.length) = .ok 2 ∧
    ([[("id", Cell.vStr "a")]] : List Row).length = 1 :=
  ⟨rfl, rfl⟩

end Filtro
